import Mathlib

/-!
Verification of the melody-recorder pipeline (pitch → note events → quantized
melody → MIDI bytes) against its specification.

The development shallowly embeds the JavaScript sources:
* the part_007 `MidiUtils` class (note-name parsing, variable-length
  quantities, `melodyToMidi` with 480 ticks per quarter note);
* the first-generation `MidiUtils.noteToMidiNumber` (src/audio/MidiUtils.js)
  and the main app's `noteToMidiNumber` helper;
* the grid quantization of `buildGridView` and the `trimMelody` helper
  (src/app.js);
* `frequencyToNoteInfo` and the two `processValidPitch` segmenter variants
  (src/app.js second half, src/unnamed/part_000);
* the `FrequencyAnalyzer` class (src/melody-2/audio/FrequencyAnalyzer.js).

Numbers: JS floating-point arithmetic is modelled with `ℚ` where the code only
adds, multiplies and rounds (serializer, quantizer), and with `ℝ` where the
code takes logarithms and powers (pitch math, segmenter, analyzer).
`Math.round` is round-half-up, which coincides with Mathlib's `round`
(`round x = ⌊x + 1/2⌋`).  Mutable objects become explicit state records; JS
`null` becomes `Option`.
-/

/-- A melody entry as stored by the apps: `{ note, duration }`.
`note` is `"Pause"` or a pitch name such as `"A4"`; `duration` is seconds. -/
structure MNote where
  note : String
  duration : ℚ
deriving DecidableEq, Repr

/-- The 12-entry pitch-class table used by every variant
(`['C','C#','D','D#','E','F','F#','G','G#','A','A#','B']`). -/
def noteStrings : List String :=
  ["C", "C#", "D", "D#", "E", "F"] ++
    ["F#", "G", "G#", "A", "A#", "B"]

/-- JS `Array.prototype.indexOf`: index of the first occurrence, `-1` when
absent. -/
def jsIndexOf : List String → String → ℤ
  | [], _ => -1
  | a :: t, x =>
    if a = x then 0
    else
      let r := jsIndexOf t x
      if r = -1 then -1 else r + 1

/-- `noteName.slice(0, -1)`: the string without its final character. -/
def sliceDropLast (s : String) : String := String.mk s.data.dropLast

/-- `parseInt(noteName.slice(-1))`: the final character as a decimal digit.
`none` models the `NaN` JS produces when the final character is not a digit
(or the string is empty); each caller's arithmetic then yields `NaN`, which we
model by propagating `none`. -/
def parseLastDigit (s : String) : Option ℕ :=
  match s.data.getLast? with
  | none => none
  | some c => if c.isDigit then some (c.toNat - 48) else none

namespace MidiUtilsJs

/-- `MidiUtils.noteToMidiNumber` from src/audio/MidiUtils.js (first
generation): `"Pause" → -1`, otherwise
`noteStrings.indexOf(prefix) + 12 * (octave + 1)` where `octave` is the final
character parsed as a digit.  `none` models the `NaN` result for a
non-digit final character. -/
def noteToMidiNumber (noteName : String) : Option ℤ :=
  if noteName = "Pause" then some (-1)
  else
    match parseLastDigit noteName with
    | none => none
    | some octave =>
        some (jsIndexOf noteStrings (sliceDropLast noteName) + 12 * ((octave : ℤ) + 1))

end MidiUtilsJs

/-- `noteToMidiNumber` from src/app.js (second half) and src/unnamed/part_000
— identical in both files.  Note the extra `+ 12` absent from the
src/audio/MidiUtils.js converter.  `none` models the `NaN` result for a
non-digit final character. -/
def noteToMidiNumber (noteName : String) : Option ℤ :=
  match parseLastDigit noteName with
  | none => none
  | some octave =>
      some (jsIndexOf noteStrings (sliceDropLast noteName) + 12 * ((octave : ℤ) + 1) + 12)

/-- Builder for the well-formed note names of the claimed domain: a pitch
class from `noteStrings` followed by one decimal digit. -/
def wellFormedName (i : Fin 12) (o : Fin 10) : String :=
  noteStrings.get i ++ String.mk [Char.ofNat (48 + o.val)]

namespace MidiUtils

/-- The `notes` object of part_007's `noteToMidi`:
`{C:0, C#:1, ..., B:11}`. -/
def notesTable : List (String × ℕ) :=
  [("C", 0), ("C#", 1), ("D", 2), ("D#", 3), ("E", 4), ("F", 5),
   ("F#", 6), ("G", 7), ("G#", 8), ("A", 9), ("A#", 10), ("B", 11)]

/-- The regex `^([A-G]#?)(\d)$` of part_007's `noteToMidi`: an uppercase
letter A–G, an optional sharp, then exactly one digit. -/
def parseNoteName (s : String) : Option (String × ℕ) :=
  match s.data with
  | [c, d] =>
      if ('A' ≤ c ∧ c ≤ 'G') ∧ d.isDigit then some (String.mk [c], d.toNat - 48)
      else none
  | [c, h, d] =>
      if ('A' ≤ c ∧ c ≤ 'G') ∧ h = '#' ∧ d.isDigit then
        some (String.mk [c, '#'], d.toNat - 48)
      else none
  | _ => none

/-- `MidiUtils.noteToMidi` from part_007: `-1` for `"Pause"` or a name the
regex rejects, else `notes[note] + (octave + 1) * 12`.  The names `"E#d"` and
`"B#d"` pass the regex but miss the table; JS then yields `NaN`, which the
single use site (`midiNote >= 0` in `melodyToMidi`) treats exactly like `-1`,
so we return `-1` there as well. -/
def noteToMidi (noteName : String) : ℤ :=
  if noteName = "Pause" then -1
  else
    match parseNoteName noteName with
    | none => -1
    | some (note, octave) =>
        match notesTable.lookup note with
        | none => -1
        | some i => (i : ℤ) + ((octave : ℤ) + 1) * 12

/-- One timed MIDI event of part_007's `melodyToMidi`: an absolute tick and
the status/data bytes. -/
structure TickEvt where
  tick : ℤ
  bytes : List ℕ
deriving DecidableEq, Repr

/-- part_007: `Math.round(noteObj.duration * (bpm / 60) * TICKS_PER_QUARTER)`
with `TICKS_PER_QUARTER = 480`. -/
def durationInTicks (bpm : ℚ) (duration : ℚ) : ℤ :=
  round (duration * (bpm / 60) * 480)

/-- The body of part_007's `melody.forEach`: a non-`"Pause"` entry whose name
parses to a MIDI number ≥ 0 appends a note-on at the current tick and a
note-off at current tick + duration (velocity 80); every entry advances the
tick cursor by its duration. -/
def noteStep (bpm : ℚ) (st : ℤ × List TickEvt) (n : MNote) : ℤ × List TickEvt :=
  let dt := durationInTicks bpm n.duration
  let evs :=
    if n.note ≠ "Pause" then
      let m := noteToMidi n.note
      if 0 ≤ m then
        st.2 ++ [⟨st.1, [0x90, m.toNat, 80]⟩, ⟨st.1 + dt, [0x80, m.toNat, 0]⟩]
      else st.2
    else st.2
  (st.1 + dt, evs)

/-- part_007's `allEvents` after the `forEach` over the melody. -/
def allEvents (melody : List MNote) (bpm : ℚ) : List TickEvt :=
  (melody.foldl (noteStep bpm) (0, [])).2

/-- `allEvents.sort((a, b) => a.tick - b.tick)`; JS `sort` is stable, as is
`mergeSort`. -/
def sortEvents (l : List TickEvt) : List TickEvt :=
  l.mergeSort (fun a b => decide (a.tick ≤ b.tick))

/-- Absolute ticks to delta times, threading `lastTick` exactly as the
source's `forEach` does. -/
def toDeltas : ℤ → List TickEvt → List (ℤ × List ℕ)
  | _, [] => []
  | lastTick, e :: t => (e.tick - lastTick, e.bytes) :: toDeltas e.tick t

/-- Byte `k` of `t`: `(t >> (8*i)) & 0xFF`, written as division/mod. -/
def byteOf (t : ℕ) (k : ℕ) : ℕ := t / 2 ^ k % 256

/-- The tempo meta event's data bytes:
`[0xFF, 0x51, 0x03]` followed by `Math.round(60000000 / bpm)` as three bytes,
high byte first.  (`Int.toNat` clamps like JS's `ToUint32` for the
nonnegative values produced by any positive bpm.) -/
def setTempo (bpm : ℚ) : List ℕ :=
  let t := (round ((60000000 : ℚ) / bpm)).toNat
  [0xFF, 0x51, 0x03, byteOf t 16, byteOf t 8, byteOf t 0]

/-- The program-change event's data bytes (`[0xC0, 0x00]`, piano). -/
def setInstrument : List ℕ := [0xC0, 0x00]

/-- The end-of-track meta event's data bytes. -/
def endOfTrack : List ℕ := [0xFF, 0x2F, 0x00]

/-- part_007's `trackEvents`: tempo and program change at delta 0, the
sorted-and-delta-converted note events, then end of track at delta 0. -/
def trackEventsOf (melody : List MNote) (bpm : ℚ) : List (ℤ × List ℕ) :=
  (0, setTempo bpm) :: (0, setInstrument) ::
    (toDeltas 0 (sortEvents (allEvents melody bpm)) ++ [(0, endOfTrack)])

/-- Base-128 digits of `n`, most significant first (`[n]` for `n < 128`). -/
def base128 (n : ℕ) : List ℕ :=
  if _h : n < 128 then [n]
  else base128 (n / 128) ++ [n % 128]
termination_by n
decreasing_by
  exact Nat.div_lt_self (by omega) (by omega)

/-- Set the continuation bit (`| 0x80`) on every byte but the last. -/
def markCont : List ℕ → List ℕ
  | [] => []
  | [b] => [b]
  | b :: c :: t => (b + 0x80) :: markCont (c :: t)

/-- part_007's `encodeVariableLengthQuantity`: negative values clamp to 0
(hence `Int.toNat`); 7 data bits per byte, most significant byte first,
continuation bit on all but the last byte. -/
def encodeVariableLengthQuantity (value : ℤ) : List ℕ :=
  markCont (base128 value.toNat)

/-- part_007's `trackData`: each event's variable-length delta followed by its
data bytes. -/
def trackDataOf (melody : List MNote) (bpm : ℚ) : List ℕ :=
  ((trackEventsOf melody bpm).map
    (fun e => encodeVariableLengthQuantity e.1 ++ e.2)).flatten

/-- part_007's `headerChunk`: `MThd`, length 6, format 0, one track, 480
(= 0x01E0) ticks per quarter note. -/
def headerChunk : List ℕ :=
  [0x4D, 0x54, 0x68, 0x64, 0x00, 0x00, 0x00, 0x06,
   0x00, 0x00, 0x00, 0x01, 0x01, 0xE0]

/-- The 4-byte big-endian chunk length. -/
def chunkLen (n : ℕ) : List ℕ := [byteOf n 24, byteOf n 16, byteOf n 8, byteOf n 0]

/-- part_007's `melodyToMidi`: header chunk, `MTrk`, track length, track
data. -/
def melodyToMidi (melody : List MNote) (bpm : ℚ) : List ℕ :=
  let td := trackDataOf melody bpm
  headerChunk ++ ([0x4D, 0x54, 0x72, 0x6B] ++ chunkLen td.length) ++ td

end MidiUtils

/-!  ## Quantizer (buildGridView in src/app.js) -/

/-- `quantStep = quarterBeatDuration * (4 / quantizationSetting)` with
`quarterBeatDuration = 60 / bpm`. -/
def quantStep (bpm quantizationSetting : ℚ) : ℚ :=
  (60 / bpm) * (4 / quantizationSetting)

/-- The unquantized `(eventStart, eventEnd)` pairs of `buildGridView`'s loop:
`eventStart = currentTime`, `eventEnd = currentTime + event.duration`,
`currentTime = eventEnd` afterwards. -/
def eventBounds (t : ℚ) : List MNote → List (ℚ × ℚ)
  | [] => []
  | e :: rest => (t, t + e.duration) :: eventBounds (t + e.duration) rest

/-- The quantized spans of `buildGridView`'s loop:
`qStart = Math.floor(eventStart / quantStep) * quantStep` and
`qEnd = Math.ceil(eventEnd / quantStep) * quantStep`, the running time
`currentTime` advancing by the unquantized duration. -/
def gridSpans (step : ℚ) (t : ℚ) : List MNote → List (ℚ × ℚ)
  | [] => []
  | e :: rest =>
      (⌊t / step⌋ * step, ⌈(t + e.duration) / step⌉ * step) ::
        gridSpans step (t + e.duration) rest

/-!  ## Trimming (trimMelody in src/app.js) -/

/-- `trimMelody`: shift while the first entry is a `"Pause"`, then pop while
the last entry is a `"Pause"` (expressed as `dropWhile` from the front and,
via `reverse`, from the back). -/
def trimMelody (melodyArray : List MNote) : List MNote :=
  (((melodyArray.dropWhile fun e => e.note == "Pause").reverse.dropWhile
      fun e => e.note == "Pause")).reverse

/-!  ## Helper lemmas -/

lemma dropWhile_head?_false {α : Type*} (p : α → Bool) (l : List α) (x : α)
    (h : (l.dropWhile p).head? = some x) : p x = false := by
  induction l with
  | nil => simp at h
  | cons a t ih =>
      rw [List.dropWhile_cons] at h
      by_cases hp : p a
      · rw [if_pos hp] at h
        exact ih h
      · rw [if_neg hp] at h
        simp only [List.head?_cons, Option.some.injEq] at h
        subst h
        simpa using hp

lemma dropWhile_getLast? {α : Type*} (p : α → Bool) (l : List α)
    (h : l.dropWhile p ≠ []) : (l.dropWhile p).getLast? = l.getLast? := by
  induction l with
  | nil => simp at h
  | cons a t ih =>
      rw [List.dropWhile_cons] at h ⊢
      by_cases hp : p a
      · rw [if_pos hp] at h ⊢
        rw [ih h]
        cases t with
        | nil => simp [List.dropWhile] at h
        | cons b r => exact List.getLast?_cons_cons.symm
      · rw [if_neg hp]

lemma floor_mul_le (s x : ℚ) (hs : 0 < s) : (⌊x / s⌋ : ℚ) * s ≤ x := by
  calc (⌊x / s⌋ : ℚ) * s ≤ (x / s) * s :=
        mul_le_mul_of_nonneg_right (Int.floor_le (x / s)) hs.le
  _ = x := div_mul_cancel₀ x hs.ne'

lemma le_ceil_mul (s x : ℚ) (hs : 0 < s) : x ≤ (⌈x / s⌉ : ℚ) * s := by
  calc x = (x / s) * s := (div_mul_cancel₀ x hs.ne').symm
  _ ≤ (⌈x / s⌉ : ℚ) * s := mul_le_mul_of_nonneg_right (Int.le_ceil (x / s)) hs.le

lemma gridSpans_eq_map (step t : ℚ) (l : List MNote) :
    gridSpans step t l =
      (eventBounds t l).map
        (fun p => ((⌊p.1 / step⌋ : ℚ) * step, (⌈p.2 / step⌉ : ℚ) * step)) := by
  induction l generalizing t with
  | nil => rfl
  | cons e rest ih => simp [gridSpans, eventBounds, ih]

lemma eventBounds_chain (t : ℚ) (l : List MNote) :
    List.Chain' (fun p q => p.2 = q.1) (eventBounds t l) := by
  induction l generalizing t with
  | nil => simp [eventBounds]
  | cons e rest ih =>
      cases rest with
      | nil => simp [eventBounds]
      | cons f r =>
          rw [eventBounds, eventBounds, List.chain'_cons]
          exact ⟨rfl, by simpa [eventBounds] using ih (t + e.duration)⟩

/-!  ## C7: exact MIDI header bytes -/

/-- C7: for every melody and every BPM, the encoded file begins with the
exact 14 header bytes `4D 54 68 64 00 00 00 06 00 00 00 01 01 E0`. -/
theorem melodyToMidi_header (melody : List MNote) (bpm : ℚ) :
    (MidiUtils.melodyToMidi melody bpm).take 14 =
      [0x4D, 0x54, 0x68, 0x64, 0x00, 0x00, 0x00, 0x06,
       0x00, 0x00, 0x00, 0x01, 0x01, 0xE0] := rfl

/-!  ## C8: encoder totality, malformed notes, empty melody -/

/-- C8: the encoder is total.  A melody entry whose name cannot be parsed to
a valid MIDI number contributes no note-on/note-off events yet advances the
tick cursor by its duration, exactly as a `"Pause"` entry of the same
duration does; and the empty melody encodes to the minimal well-formed file
holding only the tempo, program-change and end-of-track events. -/
theorem melodyToMidi_total_behavior :
    (∀ (bpm : ℚ) (st : ℤ × List MidiUtils.TickEvt) (n : MNote),
        n.note ≠ "Pause" → MidiUtils.noteToMidi n.note < 0 →
        MidiUtils.noteStep bpm st n =
            (st.1 + MidiUtils.durationInTicks bpm n.duration, st.2) ∧
        MidiUtils.noteStep bpm st n = MidiUtils.noteStep bpm st ⟨"Pause", n.duration⟩) ∧
    MidiUtils.melodyToMidi [] 120 =
      MidiUtils.headerChunk ++
        [0x4D, 0x54, 0x72, 0x6B, 0, 0, 0, 14,
         0x00, 0xFF, 0x51, 0x03, 0x07, 0xA1, 0x20,
         0x00, 0xC0, 0x00,
         0x00, 0xFF, 0x2F, 0x00] := by
  constructor
  · intro bpm st n h1 h2
    constructor
    · simp [MidiUtils.noteStep, h1, not_le.mpr h2]
    · simp [MidiUtils.noteStep, h1, not_le.mpr h2]
  · have ht : round ((60000000 : ℚ) / 120) = 500000 := by norm_num [round_eq]
    have htempo : MidiUtils.setTempo 120 = [0xFF, 0x51, 0x03, 0x07, 0xA1, 0x20] := by
      rw [MidiUtils.setTempo, ht]
      decide
    have hsort : MidiUtils.sortEvents (MidiUtils.allEvents [] 120) = [] := by
      rw [show MidiUtils.allEvents [] 120 = [] from rfl, MidiUtils.sortEvents]
      exact List.mergeSort_nil
    have hvlq : MidiUtils.encodeVariableLengthQuantity 0 = [0] := by
      rw [MidiUtils.encodeVariableLengthQuantity, Int.toNat_zero, MidiUtils.base128]
      norm_num [MidiUtils.markCont]
    rw [MidiUtils.melodyToMidi]
    rw [MidiUtils.trackDataOf, MidiUtils.trackEventsOf, hsort, htempo]
    simp only [MidiUtils.toDeltas, List.nil_append, List.map_cons, List.map_nil, hvlq,
      MidiUtils.setInstrument, MidiUtils.endOfTrack, List.flatten]
    norm_num [MidiUtils.chunkLen, MidiUtils.byteOf, MidiUtils.headerChunk]

/-- Witness for C8 at the malformed entry `{note: "X9", duration: 1}`. -/
theorem melodyToMidi_total_behavior_witness :
    (("X9" : String) ≠ "Pause") ∧ MidiUtils.noteToMidi "X9" < 0 ∧
      MidiUtils.noteStep 120 (0, []) ⟨"X9", 1⟩ =
        (MidiUtils.durationInTicks 120 1, []) := by
  refine ⟨by decide, by decide, ?_⟩
  have h := (melodyToMidi_total_behavior.1 120 (0, []) ⟨"X9", 1⟩ (by decide) (by decide)).1
  simpa using h

/-!  ## C1: delta times of the single-note melody -/

/-- C1 counterexample: encoding the melody `[{A4, 0.5s}]` at BPM 120 yields a
note-on at delta 0 followed by a note-off at delta **480** ticks — the value
of `0.5 · (120/60) · 480` — not 240 as the claim states. -/
theorem singleNote_noteOff_delta_is_480 :
    MidiUtils.toDeltas 0
        (MidiUtils.sortEvents (MidiUtils.allEvents [⟨"A4", 1/2⟩] 120)) =
      [(0, [0x90, 69, 80]), (480, [0x80, 69, 0])] ∧ (480 : ℤ) ≠ 240 := by
  have hm : MidiUtils.noteToMidi "A4" = 69 := by decide
  have hdt : MidiUtils.durationInTicks 120 (1/2) = 480 := by
    norm_num [MidiUtils.durationInTicks, round_eq]
  have hall : MidiUtils.allEvents [⟨"A4", 1/2⟩] 120 =
      [⟨0, [0x90, 69, 80]⟩, ⟨480, [0x80, 69, 0]⟩] := by
    simp [MidiUtils.allEvents, MidiUtils.noteStep, hm]
    norm_num [MidiUtils.durationInTicks, round_eq]
  have hsort : MidiUtils.sortEvents [⟨0, [0x90, 69, 80]⟩, ⟨480, [0x80, 69, 0]⟩] =
      [⟨(0 : ℤ), [0x90, 69, 80]⟩, ⟨480, [0x80, 69, 0]⟩] := by
    apply List.mergeSort_of_sorted
    simp
  rw [hall, hsort]
  exact ⟨by norm_num [MidiUtils.toDeltas], by decide⟩

/-- C1 amended: for the melody `[{A4, d}]` (d ≥ 0) at BPM 120, the encoder
emits a note-on at delta 0 and a note-off whose delta is exactly
`round(d · (120/60) · 480)` ticks — for d = 0.5s this is 480 ticks, one full
quarter note, not 240. -/
theorem singleNote_deltas (d : ℚ) (hd : 0 ≤ d) :
    MidiUtils.toDeltas 0
        (MidiUtils.sortEvents (MidiUtils.allEvents [⟨"A4", d⟩] 120)) =
      [(0, [0x90, 69, 80]), (MidiUtils.durationInTicks 120 d, [0x80, 69, 0])] ∧
    MidiUtils.durationInTicks 120 d = round (d * (120 / 60) * 480) := by
  have hm : MidiUtils.noteToMidi "A4" = 69 := by decide
  have hT : 0 ≤ MidiUtils.durationInTicks 120 d := by
    rw [MidiUtils.durationInTicks, round_eq]
    rw [Int.floor_nonneg]
    nlinarith
  have hall : MidiUtils.allEvents [⟨"A4", d⟩] 120 =
      [⟨0, [0x90, 69, 80]⟩, ⟨0 + MidiUtils.durationInTicks 120 d, [0x80, 69, 0]⟩] := by
    simp [MidiUtils.allEvents, MidiUtils.noteStep, hm]
  rw [hall]
  constructor
  · have hsort : MidiUtils.sortEvents
        [⟨(0 : ℤ), [0x90, 69, 80]⟩, ⟨0 + MidiUtils.durationInTicks 120 d, [0x80, 69, 0]⟩] =
        [⟨(0 : ℤ), [0x90, 69, 80]⟩, ⟨0 + MidiUtils.durationInTicks 120 d, [0x80, 69, 0]⟩] := by
      apply List.mergeSort_of_sorted
      simpa using hT
    rw [hsort]
    simp [MidiUtils.toDeltas]
  · rfl

/-- Witness for C1's amended theorem at d = 0.5s. -/
theorem singleNote_deltas_witness :
    (0 : ℚ) ≤ 1/2 ∧
      (MidiUtils.toDeltas 0
          (MidiUtils.sortEvents (MidiUtils.allEvents [⟨"A4", 1/2⟩] 120)) =
        [(0, [0x90, 69, 80]), (MidiUtils.durationInTicks 120 (1/2), [0x80, 69, 0])] ∧
      MidiUtils.durationInTicks 120 (1/2) = round ((1/2 : ℚ) * (120 / 60) * 480)) :=
  ⟨by norm_num, singleNote_deltas (1/2) (by norm_num)⟩

/-!  ## C10: the two note-name converters -/

/-- C10 counterexample: on the well-formed name `"A4"` the main app's
converter returns 81 while `MidiUtils.noteToMidiNumber` returns 69 — the two
converters do not compute the same function. -/
theorem noteToMidiNumber_disagree :
    noteToMidiNumber "A4" = some 81 ∧ MidiUtilsJs.noteToMidiNumber "A4" = some 69 ∧
      some (81 : ℤ) ≠ some (69 : ℤ) := by decide

/-- C10 amended: on every well-formed note name (pitch class from the
12-entry table followed by a single digit) the main app's `noteToMidiNumber`
returns exactly 12 more than `MidiUtils.noteToMidiNumber` — one octave
higher, due to the extra `+ 12` in the app's converter. -/
theorem noteToMidiNumber_off_by_twelve :
    ∀ (i : Fin 12) (o : Fin 10),
      noteToMidiNumber (wellFormedName i o) =
        (MidiUtilsJs.noteToMidiNumber (wellFormedName i o)).map (· + 12) := by decide

/-!  ## C2: quantizer floor/ceil guarantees -/

/-- C2 counterexample: at BPM 120 with a 16th-note grid (step 1/8 s), the
contiguous events `[{A4, 1/16}, {B4, 1/16}]` quantize to the spans
`[(0, 1/8), (0, 1/8)]`: the second event's quantized start (0) is strictly
before the first event's quantized end (1/8), so the two quantized spans
overlap, contradicting the claimed "no gap or overlap". -/
theorem quantized_spans_overlap :
    gridSpans (quantStep 120 16) 0 [⟨"A4", 1/16⟩, ⟨"B4", 1/16⟩] =
      [(0, 1/8), (0, 1/8)] ∧ (0 : ℚ) < 1/8 := by
  have hstep : quantStep 120 16 = 1/8 := by norm_num [quantStep]
  constructor
  · rw [hstep]
    have h1 : (⌊(0 : ℚ) / (1/8)⌋ : ℤ) = 0 := by norm_num
    have h2 : (⌈(0 + 1/16 : ℚ) / (1/8)⌉ : ℤ) = 1 := by
      rw [Int.ceil_eq_iff] <;> norm_num
    have h3 : (⌊(0 + 1/16 : ℚ) / (1/8)⌋ : ℤ) = 0 := by
      rw [Int.floor_eq_iff] <;> norm_num
    have h4 : (⌈(0 + 1/16 + 1/16 : ℚ) / (1/8)⌉ : ℤ) = 1 := by
      rw [Int.ceil_eq_iff] <;> norm_num
    rw [gridSpans, gridSpans, gridSpans]
    rw [show ((⟨"A4", 1/16⟩ : MNote).duration : ℚ) = 1/16 from rfl] 
    rw [h1, h2, h3, h4]
    norm_num
  · norm_num

/-- C2 amended: with a positive BPM and quantization denominator and step
`(60/BPM)·(4/quantization)`, every event's span quantizes to
`(⌊start/step⌋·step, ⌈end/step⌉·step)`; hence each quantized start is ≤ the
unquantized start, each quantized end is ≥ the unquantized end, no quantized
duration is smaller than the unquantized duration, and consecutive
originally-contiguous events never leave a gap (the next quantized start
is ≤ the previous quantized end) — but they may overlap when the shared
boundary is off-grid, as the counterexample shows. -/
theorem quantizer_floor_ceil (bpm q : ℚ) (hb : 0 < bpm) (hq : 0 < q)
    (events : List MNote) :
    gridSpans (quantStep bpm q) 0 events =
      (eventBounds 0 events).map
        (fun p => ((⌊p.1 / quantStep bpm q⌋ : ℚ) * quantStep bpm q,
                   (⌈p.2 / quantStep bpm q⌉ : ℚ) * quantStep bpm q)) ∧
    (∀ p ∈ eventBounds 0 events,
        (⌊p.1 / quantStep bpm q⌋ : ℚ) * quantStep bpm q ≤ p.1 ∧
        p.2 ≤ (⌈p.2 / quantStep bpm q⌉ : ℚ) * quantStep bpm q ∧
        p.2 - p.1 ≤
          (⌈p.2 / quantStep bpm q⌉ : ℚ) * quantStep bpm q -
            (⌊p.1 / quantStep bpm q⌋ : ℚ) * quantStep bpm q) ∧
    List.Chain' (fun s1 s2 => s2.1 ≤ s1.2) (gridSpans (quantStep bpm q) 0 events) := by
  have hs : 0 < quantStep bpm q := by
    rw [quantStep]
    positivity
  refine ⟨gridSpans_eq_map _ _ _, ?_, ?_⟩
  · intro p _
    have h1 := floor_mul_le (quantStep bpm q) p.1 hs
    have h2 := le_ceil_mul (quantStep bpm q) p.2 hs
    exact ⟨h1, h2, by linarith⟩
  · rw [gridSpans_eq_map, List.chain'_map]
    apply List.Chain'.imp _ (eventBounds_chain 0 events)
    intro a b hab
    simp only
    rw [← hab]
    calc (⌊a.2 / quantStep bpm q⌋ : ℚ) * quantStep bpm q ≤ a.2 :=
          floor_mul_le _ _ hs
    _ ≤ (⌈a.2 / quantStep bpm q⌉ : ℚ) * quantStep bpm q := le_ceil_mul _ _ hs

/-- Witness for C2's amended theorem at BPM 120, 16th-note grid, a single
1/16 s event. -/
theorem quantizer_floor_ceil_witness :
    (0 : ℚ) < 120 ∧ (0 : ℚ) < 16 ∧
      (gridSpans (quantStep 120 16) 0 [⟨"A4", 1/16⟩] =
        (eventBounds 0 [⟨"A4", 1/16⟩]).map
          (fun p => ((⌊p.1 / quantStep 120 16⌋ : ℚ) * quantStep 120 16,
                     (⌈p.2 / quantStep 120 16⌉ : ℚ) * quantStep 120 16)) ∧
      (∀ p ∈ eventBounds 0 [⟨"A4", 1/16⟩],
          (⌊p.1 / quantStep 120 16⌋ : ℚ) * quantStep 120 16 ≤ p.1 ∧
          p.2 ≤ (⌈p.2 / quantStep 120 16⌉ : ℚ) * quantStep 120 16 ∧
          p.2 - p.1 ≤
            (⌈p.2 / quantStep 120 16⌉ : ℚ) * quantStep 120 16 -
              (⌊p.1 / quantStep 120 16⌋ : ℚ) * quantStep 120 16) ∧
      List.Chain' (fun s1 s2 => s2.1 ≤ s1.2)
        (gridSpans (quantStep 120 16) 0 [⟨"A4", 1/16⟩])) :=
  ⟨by norm_num, by norm_num, quantizer_floor_ceil 120 16 (by norm_num) (by norm_num) _⟩

/-!  ## C9: trimming never leaves a boundary Pause -/

/-- C9: the trimmed melody either is empty or begins and ends with a
non-`"Pause"` event, and it is an infix of the input: the input is the
trimmed list surrounded by all-`"Pause"` prefixes/suffixes (so interior
`"Pause"` events are preserved). -/
theorem trimMelody_boundary (l : List MNote) (h : trimMelody l ≠ []) :
    ((trimMelody l).head h).note ≠ "Pause" ∧
    ((trimMelody l).getLast h).note ≠ "Pause" ∧
    ∃ pre suf, l = pre ++ trimMelody l ++ suf ∧
      (pre.all fun e => e.note == "Pause") ∧
      (suf.all fun e => e.note == "Pause") := by
  classical
  set p : MNote → Bool := fun e => e.note == "Pause" with hp
  set A := l.dropWhile p with hA
  set B := A.reverse.dropWhile p with hB
  have htrim : trimMelody l = B.reverse := rfl
  have hBne : B ≠ [] := by
    intro h0
    apply h
    rw [htrim, h0]
    rfl
  have hAne : A.reverse ≠ [] := by
    intro h0
    apply hBne
    rw [hB, h0]
    rfl
  refine ⟨?_, ?_, ?_⟩
  · -- head of the trim = last of B = last of A.reverse = head of A, which is non-Pause
    have h1 : (trimMelody l).head? = B.getLast? := by
      rw [htrim]
      exact List.head?_reverse B
    have h2 : B.getLast? = A.reverse.getLast? := dropWhile_getLast? p A.reverse hBne
    have h3 : A.reverse.getLast? = A.head? := by
      rw [← List.head?_reverse, List.reverse_reverse]
    have h4 : (trimMelody l).head? = some ((trimMelody l).head h) := List.head?_eq_head h
    have h5 : A.head? = some ((trimMelody l).head h) := by
      rw [← h3, ← h2, ← h1, h4]
    have h6 : p ((trimMelody l).head h) = false := by
      apply dropWhile_head?_false (l := l)
      rw [← hA]
      exact h5
    simpa [hp] using h6
  · -- last of the trim = head of B, which is non-Pause
    have h1 : (trimMelody l).getLast? = B.head? := by
      rw [htrim, ← List.head?_reverse, List.reverse_reverse]
    have h2 : (trimMelody l).getLast? = some ((trimMelody l).getLast h) :=
      List.getLast?_eq_getLast _ h
    have h3 : B.head? = some ((trimMelody l).getLast h) := by
      rw [← h1, h2]
    have h4 : p ((trimMelody l).getLast h) = false := by
      apply dropWhile_head?_false (l := A.reverse)
      rw [← hB]
      exact h3
    simpa [hp] using h4
  · refine ⟨l.takeWhile p, (A.reverse.takeWhile p).reverse, ?_, ?_, ?_⟩
    · have hsplit : l.takeWhile p ++ A = l := by
        rw [hA]
        exact List.takeWhile_append_dropWhile p l
      have hAsplit : A.reverse.takeWhile p ++ B = A.reverse := by
        rw [hB]
        exact List.takeWhile_append_dropWhile p A.reverse
      have hAeq : A = B.reverse ++ (A.reverse.takeWhile p).reverse := by
        calc A = A.reverse.reverse := (List.reverse_reverse A).symm
        _ = (A.reverse.takeWhile p ++ B).reverse := by rw [hAsplit]
        _ = B.reverse ++ (A.reverse.takeWhile p).reverse := List.reverse_append _ _
      rw [htrim, List.append_assoc, ← hAeq]
      exact hsplit.symm
    · rw [List.all_eq_true]
      intro x hx
      exact List.mem_takeWhile_imp hx
    · rw [List.all_eq_true]
      intro x hx
      rw [List.mem_reverse] at hx
      exact List.mem_takeWhile_imp hx

/-- Witness for C9 at `[Pause, A4, Pause, B4, Pause]` (trims to
`[A4, Pause, B4]`). -/
theorem trimMelody_boundary_witness :
    trimMelody [⟨"Pause", 1⟩, ⟨"A4", 1⟩, ⟨"Pause", 1⟩, ⟨"B4", 1⟩, ⟨"Pause", 1⟩] ≠ [] ∧
      ∃ pre suf,
        ([⟨"Pause", 1⟩, ⟨"A4", 1⟩, ⟨"Pause", 1⟩, ⟨"B4", 1⟩, ⟨"Pause", 1⟩] : List MNote) =
          pre ++ trimMelody [⟨"Pause", 1⟩, ⟨"A4", 1⟩, ⟨"Pause", 1⟩, ⟨"B4", 1⟩, ⟨"Pause", 1⟩] ++ suf ∧
        (pre.all fun e => e.note == "Pause") ∧
        (suf.all fun e => e.note == "Pause") := by
  have hne : trimMelody [⟨"Pause", 1⟩, ⟨"A4", 1⟩, ⟨"Pause", 1⟩, ⟨"B4", 1⟩, ⟨"Pause", 1⟩] ≠
      ([] : List MNote) := by decide
  exact ⟨hne, (trimMelody_boundary _ hne).2.2⟩

/-!  ## Pitch math (frequencyToNoteInfo in src/app.js, second half)

The JS uses `Math.log`/`Math.pow`; we model frequencies as real numbers with
`Real.logb` and real exponentiation. -/

/-- The configured vocal range (`VOCAL_RANGE`): MIDI 40 (E2) to 84 (C6). -/
def VOCAL_RANGE_MIN_MIDI : ℤ := 40

/-- Upper end of the configured vocal range. -/
def VOCAL_RANGE_MAX_MIDI : ℤ := 84

/-- The ideal (equal-tempered, A4 = 440 Hz) frequency of MIDI note `m`:
`440 * 2^((m - 69) / 12)`. -/
noncomputable def idealFreq (m : ℤ) : ℝ := 440 * (2 : ℝ) ^ (((m : ℝ) - 69) / 12)

/-- The MIDI number the app computes from a frequency:
`Math.round(12 * log2(f / 440)) + 69`. -/
noncomputable def noteNumOf (f : ℝ) : ℤ := round (12 * Real.logb 2 (f / 440)) + 69

/-- `noteStrings[noteNum % 12] + (Math.floor(noteNum / 12) - 1)`.  On the
guarded range 40–84 (all positive), JS `%` and `Math.floor(÷)` agree with
`Int.emod` and `Int.fdiv`. -/
def noteName (m : ℤ) : String :=
  noteStrings.getD (m % 12).toNat "" ++ toString (m.fdiv 12 - 1)

/-- The record returned by the app's `frequencyToNoteInfo`. -/
structure NoteInfo where
  note : String
  idealFreq : ℝ
  deviation : ℝ

/-- `frequencyToNoteInfo` from src/app.js (second half): `null` when the
rounded MIDI number falls outside the vocal range, else the note name, the
ideal frequency `440·2^((noteNum-69)/12)` and the deviation
`1200·log2(f/idealFreq)` in cents. -/
noncomputable def frequencyToNoteInfo (frequency : ℝ) : Option NoteInfo :=
  let noteNum := noteNumOf frequency
  if noteNum < VOCAL_RANGE_MIN_MIDI ∨ VOCAL_RANGE_MAX_MIDI < noteNum then none
  else
    let ideal := 440 * (2 : ℝ) ^ (((noteNum : ℝ) - 69) / 12)
    some ⟨noteName noteNum, ideal, 1200 * Real.logb 2 (frequency / ideal)⟩

lemma idealFreq_pos (m : ℤ) : 0 < idealFreq m := by
  rw [idealFreq]
  positivity

lemma logb_idealFreq_div (a b : ℤ) :
    Real.logb 2 (idealFreq a / idealFreq b) = ((a : ℝ) - b) / 12 := by
  rw [idealFreq, idealFreq, mul_div_mul_left _ _ (by norm_num : (440 : ℝ) ≠ 0),
    ← Real.rpow_sub (by norm_num : (0 : ℝ) < 2),
    Real.logb_rpow (by norm_num) (by norm_num)]
  ring

lemma abs_cents_idealFreq (a b : ℤ) :
    |1200 * Real.logb 2 (idealFreq a / idealFreq b)| = |100 * ((a : ℝ) - b)| := by
  rw [logb_idealFreq_div]
  rw [show 1200 * (((a : ℝ) - b) / 12) = 100 * ((a : ℝ) - b) by ring]

lemma noteNumOf_idealFreq (m : ℤ) : noteNumOf (idealFreq m) = m := by
  rw [noteNumOf]
  have h : idealFreq m / 440 = (2 : ℝ) ^ (((m : ℝ) - 69) / 12) := by
    rw [idealFreq]
    exact mul_div_cancel_left₀ _ (by norm_num)
  rw [h, Real.logb_rpow (by norm_num) (by norm_num)]
  have h2 : 12 * (((m : ℝ) - 69) / 12) = ((m - 69 : ℤ) : ℝ) := by
    push_cast
    ring
  rw [h2, round_intCast]
  omega

lemma frequencyToNoteInfo_idealFreq (m : ℤ) (h1 : 40 ≤ m) (h2 : m ≤ 84) :
    frequencyToNoteInfo (idealFreq m) = some ⟨noteName m, idealFreq m, 0⟩ := by
  rw [frequencyToNoteInfo]
  simp only [noteNumOf_idealFreq]
  rw [if_neg (by rw [VOCAL_RANGE_MIN_MIDI, VOCAL_RANGE_MAX_MIDI]; omega)]
  have hd : idealFreq m / idealFreq m = 1 := div_self (idealFreq_pos m).ne'
  have hi : (440 : ℝ) * (2 : ℝ) ^ (((m : ℝ) - 69) / 12) = idealFreq m := rfl
  rw [hi, hd, Real.logb_one, mul_zero]

/-!  ## C6: NoteMapper is the identity on ideal frequencies -/

/-- C6: for every MIDI number `m` in the configured range 40–84, mapping the
exact reference frequency `440·2^((m−69)/12)` through `frequencyToNoteInfo`
yields the note name of `m` with cents deviation exactly 0, and the computed
MIDI number `round(12·log2(f/440)) + 69` is `m` itself. -/
theorem noteMapper_idempotent (m : ℤ) (h1 : 40 ≤ m) (h2 : m ≤ 84) :
    frequencyToNoteInfo (idealFreq m) = some ⟨noteName m, idealFreq m, 0⟩ ∧
      noteNumOf (idealFreq m) = m :=
  ⟨frequencyToNoteInfo_idealFreq m h1 h2, noteNumOf_idealFreq m⟩

/-- Witness for C6 at m = 69 (A4, 440 Hz). -/
theorem noteMapper_idempotent_witness :
    (40 : ℤ) ≤ 69 ∧ (69 : ℤ) ≤ 84 ∧ noteName 69 = "A4" ∧
      (frequencyToNoteInfo (idealFreq 69) = some ⟨noteName 69, idealFreq 69, 0⟩ ∧
        noteNumOf (idealFreq 69) = 69) :=
  ⟨by decide, by decide, by decide, noteMapper_idempotent 69 (by decide) (by decide)⟩

/-!  ## NoteSegmenter, src/app.js (second half): processValidPitch -/

/-- `MIN_CANDIDATE_COUNT = 5` (src/app.js second half, part_000). -/
def MIN_CANDIDATE_COUNT : ℕ := 5

/-- `HYSTERESIS = 15` cents (src/app.js second half). -/
def HYSTERESIS : ℝ := 15

/-- A recorded event of the second-generation app: `{ note, duration }`
with the duration measured on the live clock (seconds, real-valued). -/
structure NoteEvt where
  note : String
  duration : ℝ

/-- The mutable segmenter globals of src/app.js (second half) as one record:
`melody`, `lastDetectedNote`, `lastNoteStartTime`, `candidateNote`,
`candidateStartTime`, `candidateCount`. -/
structure SegState where
  melody : List NoteEvt
  lastDetectedNote : Option String
  lastNoteStartTime : ℝ
  candidateNote : Option String
  candidateStartTime : ℝ
  candidateCount : ℕ

/-- `normalizeDuration` (src/app.js second half): round to the nearest 32nd
note and clamp between a 16th note and one beat. -/
noncomputable def normalizeDuration (BPM duration : ℝ) : ℝ :=
  let beatDuration := 60 / BPM
  let qs := beatDuration / 8
  let normalized := (round (duration / qs) : ℝ) * qs
  let n1 := if normalized < beatDuration / 4 then beatDuration / 4 else normalized
  if beatDuration < n1 then beatDuration else n1

open scoped Classical in
/-- `processValidPitch` from src/app.js (second half), lines 625–684.  UI
calls (`updateActiveNotes`, DOM text) are omitted; everything that touches
the segmenter state is kept:

* no candidate yet → adopt the observed note with count 1;
* observed note differs from the candidate → "hysteresis": compare the cents
  deviations of `frequencyToNoteInfo(noteInfo.idealFreq)` and
  `frequencyToNoteInfo(440·2^((noteToMidiNumber(candidateNote)−69)/12))`;
  if either is `null` or the difference is ≤ `HYSTERESIS`, keep the candidate
  and increment its counter; otherwise restart with the observed note;
* observed note matches → increment the counter; at `MIN_CANDIDATE_COUNT`,
  if a different note is open, push it with `normalizeDuration` applied to
  the time since `candidateStartTime`, and open the candidate at `now`. -/
noncomputable def processValidPitch (info : NoteInfo) (now BPM : ℝ) (s : SegState) : SegState :=
  let newNote := info.note
  match s.candidateNote with
  | none =>
      { s with candidateNote := some newNote, candidateStartTime := now, candidateCount := 1 }
  | some cand =>
      if cand ≠ newNote then
        let currentNoteInfo := frequencyToNoteInfo info.idealFreq
        let candidateNoteInfo :=
          match noteToMidiNumber cand with
          | some mc => frequencyToNoteInfo (440 * (2 : ℝ) ^ (((mc : ℝ) - 69) / 12))
          | none => none
        match currentNoteInfo, candidateNoteInfo with
        | some ci, some di =>
            if |ci.deviation - di.deviation| ≤ HYSTERESIS then
              { s with candidateCount := s.candidateCount + 1 }
            else
              { s with candidateNote := some newNote, candidateStartTime := now,
                       candidateCount := 1 }
        | _, _ => { s with candidateCount := s.candidateCount + 1 }
      else
        let s1 := { s with candidateCount := s.candidateCount + 1 }
        if MIN_CANDIDATE_COUNT ≤ s1.candidateCount then
          let duration := normalizeDuration BPM ((now - s1.candidateStartTime) / 1000)
          if s1.lastDetectedNote ≠ some cand then
            let s2 :=
              match s1.lastDetectedNote with
              | some old => { s1 with melody := s1.melody ++ [NoteEvt.mk old duration] }
              | none => s1
            { s2 with lastDetectedNote := some cand, lastNoteStartTime := now }
          else s1
        else s1

/-- Any valid observation of a note different from the current candidate,
with both reference frequencies inside the vocal range, leaves the candidate
unchanged and increments its counter: the code's "cents distance" is the
difference of two deviations that are both exactly 0. -/
lemma processValidPitch_keeps_candidate (info : NoteInfo) (now BPM : ℝ)
    (s : SegState) (cand : String) (mc mi : ℤ)
    (hc : s.candidateNote = some cand) (hne : cand ≠ info.note)
    (hobs : info.idealFreq = idealFreq mi) (h40 : 40 ≤ mi) (h84 : mi ≤ 84)
    (hmc : noteToMidiNumber cand = some mc) (h40c : 40 ≤ mc) (h84c : mc ≤ 84) :
    processValidPitch info now BPM s = { s with candidateCount := s.candidateCount + 1 } := by
  have hobs2 : frequencyToNoteInfo info.idealFreq = some ⟨noteName mi, idealFreq mi, 0⟩ := by
    rw [hobs]
    exact frequencyToNoteInfo_idealFreq mi h40 h84
  have hcand : frequencyToNoteInfo (440 * (2 : ℝ) ^ (((mc : ℝ) - 69) / 12)) =
      some ⟨noteName mc, idealFreq mc, 0⟩ :=
    frequencyToNoteInfo_idealFreq mc h40c h84c
  rw [processValidPitch, hc]
  simp only [hne, ne_eq, not_false_iff, if_true, hmc, hobs2, hcand]
  rw [if_pos]
  rw [show |(0 : ℝ) - 0| = 0 by simp]
  rw [HYSTERESIS]
  norm_num

/-!  ## C4: the hysteresis comparison never switches notes -/

/-- C4 (code bug evidence): with candidate `"A4"` (count 1) and a valid
observation of `"C5"` — two notes whose ideal frequencies are 300 cents
apart, far beyond the 15-cent hysteresis band — the step keeps candidate
`"A4"` and merely increments its counter.  The code compares the cents
deviations of two *ideal* frequencies, which are both exactly 0, so the
computed distance is always 0 ≤ 15 and no different-note observation can
ever restart the candidate. -/
theorem hysteresis_comparison_degenerate :
    processValidPitch ⟨"C5", idealFreq 72, 0⟩ 100 120 ⟨[], none, 0, some "A4", 0, 1⟩ =
        ⟨[], none, 0, some "A4", 0, 2⟩ ∧
      |1200 * Real.logb 2 (idealFreq 72 / idealFreq 69)| = 300 ∧ (15 : ℝ) < 300 := by
  refine ⟨?_, ?_, by norm_num⟩
  · have h := processValidPitch_keeps_candidate ⟨"C5", idealFreq 72, 0⟩ 100 120
      ⟨[], none, 0, some "A4", 0, 1⟩ "A4" 81 72 rfl (by decide) rfl (by norm_num)
      (by norm_num) (by decide) (by norm_num) (by norm_num)
    rw [h]
  · rw [abs_cents_idealFreq]
    norm_num

/-!  ## NoteSegmenter, src/unnamed/part_000: processValidPitch

This variant records timestamps and frequencies and opens confirmed notes at
the candidate's original observation time. -/

/-- `NOTE_CHANGE_THRESHOLD = 30` cents (part_000). -/
def NOTE_CHANGE_THRESHOLD : ℝ := 30

/-- A part_000 melody event: `{ note, duration, timestamp, frequency }`
(`frequency` is absent, i.e. `none`, on `"Pause"` events). -/
structure Ev000 where
  note : String
  duration : ℝ
  timestamp : ℝ
  frequency : Option ℝ

/-- The part_000 segmenter globals as one record.  Fields that JS initializes
to `null` are `Option ℝ`; JS arithmetic coerces `null` to 0, which `jsNum`
reproduces. -/
structure S000 where
  melody : List Ev000
  lastDetectedNote : Option String
  lastDetectedFrequency : Option ℝ
  lastNoteStartTime : Option ℝ
  recordingStartTime : Option ℝ
  lastEventTime : Option ℝ
  pauseStartTime : Option ℝ
  candidateNote : Option String
  candidateStartTime : ℝ
  candidateCount : ℕ

/-- A per-tick observation, the record part_000's `frequencyToNoteInfo`
returns: `{ note, idealFreq, deviation, frequency }`. -/
structure Obs000 where
  note : String
  idealFreq : ℝ
  deviation : ℝ
  frequency : ℝ

/-- JS number coercion of a possibly-`null` variable: `null` behaves as 0 in
arithmetic. -/
def jsNum (o : Option ℝ) : ℝ := o.getD 0

/-- JS falsiness of a possibly-`null` number: `!x` is true for `null` and
for 0. -/
def jsFalsy (o : Option ℝ) : Prop := o = none ∨ o = some 0

open scoped Classical in
/-- part_000 `processValidPitch`, opening block:
`if (!recordingStartTime) { recordingStartTime = now; lastEventTime = now; }`. -/
noncomputable def pv000_init (now : ℝ) (s : S000) : S000 :=
  if jsFalsy s.recordingStartTime then
    { s with recordingStartTime := some now, lastEventTime := some now }
  else s

open scoped Classical in
/-- part_000 `processValidPitch`, pause flush: when `pauseStartTime` is set,
record a `"Pause"` event if the pause lasted at least 100 ms, then clear
`pauseStartTime`. -/
noncomputable def pv000_pause (now : ℝ) (s : S000) : S000 :=
  match s.pauseStartTime with
  | none => s
  | some p =>
      let pauseDuration := (now - p) / 1000
      let s1 :=
        if 0.1 ≤ pauseDuration then
          { s with melody := s.melody ++
              [Ev000.mk "Pause" pauseDuration ((p - jsNum s.recordingStartTime) / 1000) none] }
        else s
      { s1 with pauseStartTime := none }

open scoped Classical in
/-- part_000 `processValidPitch`, candidate logic (lines 200–260):

* no candidate → adopt the observation with count 1;
* differing observation → `centsDiff` between the observed frequency and the
  candidate's reference frequency (computed through `noteToMidiNumber`, which
  carries the extra `+ 12`); below `NOTE_CHANGE_THRESHOLD` keep and count up;
  otherwise, when the candidate's count already reached
  `MIN_CANDIDATE_COUNT`, close any open note (min-duration 100 ms) and open
  the *observed* note at `now` immediately; in either case restart the
  candidate with the observed note;
* matching observation → count up; exactly at `MIN_CANDIDATE_COUNT` with a
  different open note, close the open note (no min-duration check here) and
  open the confirmed note at `candidateStartTime`. -/
noncomputable def pv000_main (info : Obs000) (now : ℝ) (s : S000) : S000 :=
  match s.candidateNote with
  | none =>
      { s with candidateNote := some info.note, candidateStartTime := now,
               candidateCount := 1 }
  | some cand =>
      if cand ≠ info.note then
        let currentNoteFreq :=
          match noteToMidiNumber cand with
          | some m => 440 * (2 : ℝ) ^ (((m : ℝ) - 69) / 12)
          | none => 0
        let centsDiff := |1200 * Real.logb 2 (info.frequency / currentNoteFreq)|
        if centsDiff < NOTE_CHANGE_THRESHOLD then
          { s with candidateCount := s.candidateCount + 1 }
        else
          let s1 :=
            if MIN_CANDIDATE_COUNT ≤ s.candidateCount then
              let s2 :=
                match s.lastDetectedNote with
                | some old =>
                    let noteDuration := (now - jsNum s.lastNoteStartTime) / 1000
                    if 0.1 ≤ noteDuration then
                      { s with melody := s.melody ++
                          [Ev000.mk old noteDuration
                            ((jsNum s.lastNoteStartTime - jsNum s.recordingStartTime) / 1000)
                            s.lastDetectedFrequency] }
                    else s
                | none => s
              { s2 with lastDetectedNote := some info.note,
                        lastDetectedFrequency := some info.frequency,
                        lastNoteStartTime := some now, lastEventTime := some now }
            else s
          { s1 with candidateNote := some info.note, candidateStartTime := now,
                    candidateCount := 1 }
      else
        let s1 := { s with candidateCount := s.candidateCount + 1 }
        if s1.candidateCount = MIN_CANDIDATE_COUNT ∧ s1.lastDetectedNote ≠ some info.note then
          let s2 :=
            match s1.lastDetectedNote with
            | some old =>
                { s1 with melody := s1.melody ++
                    [Ev000.mk old ((s1.candidateStartTime - jsNum s1.lastNoteStartTime) / 1000)
                      ((jsNum s1.lastNoteStartTime - jsNum s1.recordingStartTime) / 1000)
                      s1.lastDetectedFrequency] }
            | none => s1
          { s2 with lastDetectedNote := some info.note,
                    lastDetectedFrequency := some info.frequency,
                    lastNoteStartTime := some s1.candidateStartTime,
                    lastEventTime := some now }
        else s1

/-- part_000 `processValidPitch`: recording-start block, pause flush, then
the candidate logic, in source order. -/
noncomputable def processValidPitch000 (info : Obs000) (now : ℝ) (s : S000) : S000 :=
  pv000_main info now (pv000_pause now (pv000_init now s))

lemma pv000_init_none (now : ℝ) (s : S000) (h : s.recordingStartTime = none) :
    pv000_init now s = { s with recordingStartTime := some now, lastEventTime := some now } := by
  rw [pv000_init, if_pos (show jsFalsy s.recordingStartTime from Or.inl h)]

lemma pv000_init_some (now x : ℝ) (s : S000) (h : s.recordingStartTime = some x)
    (hx : x ≠ 0) : pv000_init now s = s := by
  rw [pv000_init, if_neg]
  rw [jsFalsy, h]
  simp [hx]

lemma pv000_pause_none (now : ℝ) (s : S000) (h : s.pauseStartTime = none) :
    pv000_pause now s = s := by
  obtain ⟨mel, ldn, ldf, lnst, rst, lev, pst, cn, cst, cc⟩ := s
  simp only at h
  subst h
  rfl

lemma pv000_main_first (info : Obs000) (now : ℝ) (s : S000) (h : s.candidateNote = none) :
    pv000_main info now s =
      { s with candidateNote := some info.note, candidateStartTime := now,
               candidateCount := 1 } := by
  obtain ⟨mel, ldn, ldf, lnst, rst, lev, pst, cn, cst, cc⟩ := s
  simp only at h
  subst h
  rfl

lemma pv000_main_same_small (info : Obs000) (now : ℝ) (s : S000) (cand : String)
    (h : s.candidateNote = some cand) (he : cand = info.note)
    (hc : ¬(s.candidateCount + 1 = MIN_CANDIDATE_COUNT ∧ s.lastDetectedNote ≠ some info.note)) :
    pv000_main info now s = { s with candidateCount := s.candidateCount + 1 } := by
  obtain ⟨mel, ldn, ldf, lnst, rst, lev, pst, cn, cst, cc⟩ := s
  simp only at h hc
  subst h
  simp only [pv000_main]
  rw [if_neg (show ¬(cand ≠ info.note) from by simp [he])]
  rw [if_neg]
  exact hc

lemma pv000_main_confirm_none (info : Obs000) (now : ℝ) (s : S000) (cand : String)
    (h : s.candidateNote = some cand) (he : cand = info.note)
    (hc : s.candidateCount + 1 = MIN_CANDIDATE_COUNT)
    (hl : s.lastDetectedNote = none) :
    pv000_main info now s =
      { s with lastDetectedNote := some info.note,
               lastDetectedFrequency := some info.frequency,
               lastNoteStartTime := some s.candidateStartTime,
               lastEventTime := some now,
               candidateCount := s.candidateCount + 1 } := by
  obtain ⟨mel, ldn, ldf, lnst, rst, lev, pst, cn, cst, cc⟩ := s
  simp only at h hc hl
  subst h
  subst hl
  simp only [pv000_main]
  rw [if_neg (show ¬(cand ≠ info.note) from by simp [he])]
  rw [if_pos]
  exact ⟨hc, by simp⟩

lemma pv000_main_confirm_push (info : Obs000) (now : ℝ) (s : S000) (cand old : String)
    (h : s.candidateNote = some cand) (he : cand = info.note)
    (hc : s.candidateCount + 1 = MIN_CANDIDATE_COUNT)
    (hl : s.lastDetectedNote = some old) (hol : old ≠ info.note) :
    pv000_main info now s =
      { s with
        melody := (s.melody ++
          [Ev000.mk old ((s.candidateStartTime - jsNum s.lastNoteStartTime) / 1000)
            ((jsNum s.lastNoteStartTime - jsNum s.recordingStartTime) / 1000)
            s.lastDetectedFrequency]),
        lastDetectedNote := some info.note,
        lastDetectedFrequency := some info.frequency,
        lastNoteStartTime := some s.candidateStartTime,
        lastEventTime := some now,
        candidateCount := s.candidateCount + 1 } := by
  obtain ⟨mel, ldn, ldf, lnst, rst, lev, pst, cn, cst, cc⟩ := s
  simp only at h hc hl
  subst h
  subst hl
  simp only [pv000_main]
  rw [if_neg (show ¬(cand ≠ info.note) from by simp [he])]
  rw [if_pos]
  exact ⟨hc, by simp [hol]⟩

lemma not_centsDiff_lt (a b : ℤ) (f : ℝ) (hf : f = idealFreq a)
    (hab : (30 : ℝ) ≤ |100 * ((a : ℝ) - (b : ℝ))|) :
    ¬ |1200 * Real.logb 2 (f / (440 * (2 : ℝ) ^ (((b : ℝ) - 69) / 12)))| <
      NOTE_CHANGE_THRESHOLD := by
  rw [hf, show (440 * (2 : ℝ) ^ (((b : ℝ) - 69) / 12)) = idealFreq b from rfl,
    abs_cents_idealFreq, NOTE_CHANGE_THRESHOLD]
  exact not_lt.mpr hab

lemma pv000_main_diff_reset (info : Obs000) (now : ℝ) (s : S000) (cand : String) (mc : ℤ)
    (h : s.candidateNote = some cand) (hne : cand ≠ info.note)
    (hm : noteToMidiNumber cand = some mc)
    (hcents : ¬ |1200 * Real.logb 2
        (info.frequency / (440 * (2 : ℝ) ^ (((mc : ℝ) - 69) / 12)))| < NOTE_CHANGE_THRESHOLD)
    (hcnt : ¬ MIN_CANDIDATE_COUNT ≤ s.candidateCount) :
    pv000_main info now s =
      { s with candidateNote := some info.note, candidateStartTime := now,
               candidateCount := 1 } := by
  obtain ⟨mel, ldn, ldf, lnst, rst, lev, pst, cn, cst, cc⟩ := s
  simp only at h hcnt
  subst h
  simp only [pv000_main, hm]
  rw [if_pos hne]
  rw [if_neg hcents]
  rw [if_neg hcnt]

lemma pv000_main_diff_commit (info : Obs000) (now : ℝ) (s : S000) (cand old : String)
    (mc : ℤ) (h : s.candidateNote = some cand) (hne : cand ≠ info.note)
    (hm : noteToMidiNumber cand = some mc)
    (hcents : ¬ |1200 * Real.logb 2
        (info.frequency / (440 * (2 : ℝ) ^ (((mc : ℝ) - 69) / 12)))| < NOTE_CHANGE_THRESHOLD)
    (hcnt : MIN_CANDIDATE_COUNT ≤ s.candidateCount)
    (hl : s.lastDetectedNote = some old)
    (hdur : (0.1 : ℝ) ≤ (now - jsNum s.lastNoteStartTime) / 1000) :
    pv000_main info now s =
      { s with
        melody := (s.melody ++
          [Ev000.mk old ((now - jsNum s.lastNoteStartTime) / 1000)
            ((jsNum s.lastNoteStartTime - jsNum s.recordingStartTime) / 1000)
            s.lastDetectedFrequency]),
        lastDetectedNote := some info.note,
        lastDetectedFrequency := some info.frequency,
        lastNoteStartTime := some now,
        lastEventTime := some now,
        candidateNote := some info.note,
        candidateStartTime := now,
        candidateCount := 1 } := by
  obtain ⟨mel, ldn, ldf, lnst, rst, lev, pst, cn, cst, cc⟩ := s
  simp only at h hl
  subst h
  subst hl
  simp only [pv000_main, hm]
  rw [if_pos hne]
  rw [if_neg hcents]
  rw [if_pos hcnt]
  rw [if_pos hdur]


/-- The observation part_000's `frequencyToNoteInfo` produces for an exact
A4 (MIDI 69). -/
noncomputable def obsA : Obs000 := Obs000.mk "A4" (idealFreq 69) 0 (idealFreq 69)

/-- The observation for an exact C5 (MIDI 72). -/
noncomputable def obsC : Obs000 := Obs000.mk "C5" (idealFreq 72) 0 (idealFreq 72)

/-- The part_000 segmenter state at the start of a recording (the record
button resets the timing fields; `candidateNote`/`candidateCount` keep their
page-load values `null`/0). -/
def s000init : S000 := S000.mk [] none none none none none none none 0 0

/-- The C3 input trace: five A4 observations (confirming A4), one C5
observation, then five A4 observations, 100 ms apart. -/
noncomputable def c3Input : List (Obs000 × ℝ) :=
  [(obsA, 1000), (obsA, 1100), (obsA, 1200), (obsA, 1300), (obsA, 1400),
   (obsC, 1500),
   (obsA, 1600), (obsA, 1700), (obsA, 1800), (obsA, 1900), (obsA, 2000)]

/-- The part_000 segmenter state after feeding `c3Input` from the initial
state. -/
noncomputable def c3Run : S000 :=
  c3Input.foldl (fun s p => processValidPitch000 p.1 p.2 s) s000init


/-- C3 (code bug evidence): starting from the initial state, the input
`c3Input` — in which the new note C5 is observed exactly **once**, fewer than
`MIN_CANDIDATE_COUNT = 5` times, interleaved with observations of the old
note A4 — leaves a NoteEvent for C5 in the melody.  The old note's candidate
count had already reached 5, so the single differing C5 observation opened
C5 as the stable note immediately, and the A4 re-confirmation then closed
and appended it.  (The C5 note *is* opened at its observation time, 1500,
and is appended with timestamp (1500−1000)/1000 = 0.5 s and duration
(1600−1500)/1000 = 0.1 s.) -/
theorem segmenter_appends_unconfirmed_note :
    c3Run.melody =
      [Ev000.mk "A4" (1/2) 0 (some (idealFreq 69)),
       Ev000.mk "C5" (1/10) (1/2) (some (idealFreq 72))] ∧
    (c3Input.countP fun p => p.1.note == "C5") = 1 ∧
    1 < MIN_CANDIDATE_COUNT := by
  have hab72_81 : (30 : ℝ) ≤ |100 * (((72 : ℤ) : ℝ) - ((81 : ℤ) : ℝ))| := by
    rw [show (100 : ℝ) * (((72 : ℤ) : ℝ) - ((81 : ℤ) : ℝ)) = -900 by push_cast; ring]
    rw [abs_neg, abs_of_nonneg (by norm_num : (0 : ℝ) ≤ 900)]
    norm_num
  have hab69_84 : (30 : ℝ) ≤ |100 * (((69 : ℤ) : ℝ) - ((84 : ℤ) : ℝ))| := by
    rw [show (100 : ℝ) * (((69 : ℤ) : ℝ) - ((84 : ℤ) : ℝ)) = -1500 by push_cast; ring]
    rw [abs_neg, abs_of_nonneg (by norm_num : (0 : ℝ) ≤ 1500)]
    norm_num

  have e1 : processValidPitch000 obsA 1000 s000init = (S000.mk [] none none none (some 1000) (some 1000) none (some "A4") 1000 1) := by
    rw [processValidPitch000, pv000_init_none 1000 s000init rfl]
    simp only [s000init]
    rw [pv000_pause_none 1000
      (S000.mk [] none none none (some 1000) (some 1000) none none 0 0) rfl]
    rw [pv000_main_first obsA 1000
      (S000.mk [] none none none (some 1000) (some 1000) none none 0 0) rfl]
    rfl
  have e2 : processValidPitch000 obsA 1100 (S000.mk [] none none none (some 1000) (some 1000) none (some "A4") 1000 1) = (S000.mk [] none none none (some 1000) (some 1000) none (some "A4") 1000 2) := by
    rw [processValidPitch000, pv000_init_some 1100 1000 (S000.mk [] none none none (some 1000) (some 1000) none (some "A4") 1000 1) rfl (by norm_num)]
    rw [pv000_pause_none 1100
      (S000.mk [] none none none (some 1000) (some 1000) none (some "A4") 1000 1) rfl]
    rw [pv000_main_same_small obsA 1100
      (S000.mk [] none none none (some 1000) (some 1000) none (some "A4") 1000 1) "A4" rfl rfl (by decide)]
  have e3 : processValidPitch000 obsA 1200 (S000.mk [] none none none (some 1000) (some 1000) none (some "A4") 1000 2) = (S000.mk [] none none none (some 1000) (some 1000) none (some "A4") 1000 3) := by
    rw [processValidPitch000, pv000_init_some 1200 1000 (S000.mk [] none none none (some 1000) (some 1000) none (some "A4") 1000 2) rfl (by norm_num)]
    rw [pv000_pause_none 1200
      (S000.mk [] none none none (some 1000) (some 1000) none (some "A4") 1000 2) rfl]
    rw [pv000_main_same_small obsA 1200
      (S000.mk [] none none none (some 1000) (some 1000) none (some "A4") 1000 2) "A4" rfl rfl (by decide)]
  have e4 : processValidPitch000 obsA 1300 (S000.mk [] none none none (some 1000) (some 1000) none (some "A4") 1000 3) = (S000.mk [] none none none (some 1000) (some 1000) none (some "A4") 1000 4) := by
    rw [processValidPitch000, pv000_init_some 1300 1000 (S000.mk [] none none none (some 1000) (some 1000) none (some "A4") 1000 3) rfl (by norm_num)]
    rw [pv000_pause_none 1300
      (S000.mk [] none none none (some 1000) (some 1000) none (some "A4") 1000 3) rfl]
    rw [pv000_main_same_small obsA 1300
      (S000.mk [] none none none (some 1000) (some 1000) none (some "A4") 1000 3) "A4" rfl rfl (by decide)]
  have e5 : processValidPitch000 obsA 1400 (S000.mk [] none none none (some 1000) (some 1000) none (some "A4") 1000 4) = (S000.mk [] (some "A4") (some (idealFreq 69)) (some 1000) (some 1000) (some 1400) none (some "A4") 1000 5) := by
    rw [processValidPitch000, pv000_init_some 1400 1000 (S000.mk [] none none none (some 1000) (some 1000) none (some "A4") 1000 4) rfl (by norm_num)]
    rw [pv000_pause_none 1400
      (S000.mk [] none none none (some 1000) (some 1000) none (some "A4") 1000 4) rfl]
    rw [pv000_main_confirm_none obsA 1400
      (S000.mk [] none none none (some 1000) (some 1000) none (some "A4") 1000 4) "A4" rfl rfl (by decide) rfl]
    rfl
  have e6 : processValidPitch000 obsC 1500 (S000.mk [] (some "A4") (some (idealFreq 69)) (some 1000) (some 1000) (some 1400) none (some "A4") 1000 5) = (S000.mk [Ev000.mk "A4" (((1500 : ℝ) - 1000) / 1000) (((1000 : ℝ) - 1000) / 1000) (some (idealFreq 69))] (some "C5") (some (idealFreq 72)) (some 1500) (some 1000) (some 1500) none (some "C5") 1500 1) := by
    rw [processValidPitch000, pv000_init_some 1500 1000 (S000.mk [] (some "A4") (some (idealFreq 69)) (some 1000) (some 1000) (some 1400) none (some "A4") 1000 5) rfl (by norm_num)]
    rw [pv000_pause_none 1500
      (S000.mk [] (some "A4") (some (idealFreq 69)) (some 1000) (some 1000) (some 1400) none (some "A4") 1000 5) rfl]
    rw [pv000_main_diff_commit obsC 1500
      (S000.mk [] (some "A4") (some (idealFreq 69)) (some 1000) (some 1000) (some 1400) none (some "A4") 1000 5) "A4" "A4" 81 rfl (by decide) (by decide)
      (not_centsDiff_lt 72 81 obsC.frequency rfl hab72_81) (by decide) rfl
      (by norm_num [jsNum, Option.getD_some])]
    rfl
  have e7 : processValidPitch000 obsA 1600 (S000.mk [Ev000.mk "A4" (((1500 : ℝ) - 1000) / 1000) (((1000 : ℝ) - 1000) / 1000) (some (idealFreq 69))] (some "C5") (some (idealFreq 72)) (some 1500) (some 1000) (some 1500) none (some "C5") 1500 1) = (S000.mk [Ev000.mk "A4" (((1500 : ℝ) - 1000) / 1000) (((1000 : ℝ) - 1000) / 1000) (some (idealFreq 69))] (some "C5") (some (idealFreq 72)) (some 1500) (some 1000) (some 1500) none (some "A4") 1600 1) := by
    rw [processValidPitch000, pv000_init_some 1600 1000 (S000.mk [Ev000.mk "A4" (((1500 : ℝ) - 1000) / 1000) (((1000 : ℝ) - 1000) / 1000) (some (idealFreq 69))] (some "C5") (some (idealFreq 72)) (some 1500) (some 1000) (some 1500) none (some "C5") 1500 1) rfl (by norm_num)]
    rw [pv000_pause_none 1600
      (S000.mk [Ev000.mk "A4" (((1500 : ℝ) - 1000) / 1000) (((1000 : ℝ) - 1000) / 1000) (some (idealFreq 69))] (some "C5") (some (idealFreq 72)) (some 1500) (some 1000) (some 1500) none (some "C5") 1500 1) rfl]
    rw [pv000_main_diff_reset obsA 1600
      (S000.mk [Ev000.mk "A4" (((1500 : ℝ) - 1000) / 1000) (((1000 : ℝ) - 1000) / 1000) (some (idealFreq 69))] (some "C5") (some (idealFreq 72)) (some 1500) (some 1000) (some 1500) none (some "C5") 1500 1) "C5" 84 rfl (by decide) (by decide)
      (not_centsDiff_lt 69 84 obsA.frequency rfl hab69_84) (by decide)]
    rfl
  have e8 : processValidPitch000 obsA 1700 (S000.mk [Ev000.mk "A4" (((1500 : ℝ) - 1000) / 1000) (((1000 : ℝ) - 1000) / 1000) (some (idealFreq 69))] (some "C5") (some (idealFreq 72)) (some 1500) (some 1000) (some 1500) none (some "A4") 1600 1) = (S000.mk [Ev000.mk "A4" (((1500 : ℝ) - 1000) / 1000) (((1000 : ℝ) - 1000) / 1000) (some (idealFreq 69))] (some "C5") (some (idealFreq 72)) (some 1500) (some 1000) (some 1500) none (some "A4") 1600 2) := by
    rw [processValidPitch000, pv000_init_some 1700 1000 (S000.mk [Ev000.mk "A4" (((1500 : ℝ) - 1000) / 1000) (((1000 : ℝ) - 1000) / 1000) (some (idealFreq 69))] (some "C5") (some (idealFreq 72)) (some 1500) (some 1000) (some 1500) none (some "A4") 1600 1) rfl (by norm_num)]
    rw [pv000_pause_none 1700
      (S000.mk [Ev000.mk "A4" (((1500 : ℝ) - 1000) / 1000) (((1000 : ℝ) - 1000) / 1000) (some (idealFreq 69))] (some "C5") (some (idealFreq 72)) (some 1500) (some 1000) (some 1500) none (some "A4") 1600 1) rfl]
    rw [pv000_main_same_small obsA 1700
      (S000.mk [Ev000.mk "A4" (((1500 : ℝ) - 1000) / 1000) (((1000 : ℝ) - 1000) / 1000) (some (idealFreq 69))] (some "C5") (some (idealFreq 72)) (some 1500) (some 1000) (some 1500) none (some "A4") 1600 1) "A4" rfl rfl (by decide)]
  have e9 : processValidPitch000 obsA 1800 (S000.mk [Ev000.mk "A4" (((1500 : ℝ) - 1000) / 1000) (((1000 : ℝ) - 1000) / 1000) (some (idealFreq 69))] (some "C5") (some (idealFreq 72)) (some 1500) (some 1000) (some 1500) none (some "A4") 1600 2) = (S000.mk [Ev000.mk "A4" (((1500 : ℝ) - 1000) / 1000) (((1000 : ℝ) - 1000) / 1000) (some (idealFreq 69))] (some "C5") (some (idealFreq 72)) (some 1500) (some 1000) (some 1500) none (some "A4") 1600 3) := by
    rw [processValidPitch000, pv000_init_some 1800 1000 (S000.mk [Ev000.mk "A4" (((1500 : ℝ) - 1000) / 1000) (((1000 : ℝ) - 1000) / 1000) (some (idealFreq 69))] (some "C5") (some (idealFreq 72)) (some 1500) (some 1000) (some 1500) none (some "A4") 1600 2) rfl (by norm_num)]
    rw [pv000_pause_none 1800
      (S000.mk [Ev000.mk "A4" (((1500 : ℝ) - 1000) / 1000) (((1000 : ℝ) - 1000) / 1000) (some (idealFreq 69))] (some "C5") (some (idealFreq 72)) (some 1500) (some 1000) (some 1500) none (some "A4") 1600 2) rfl]
    rw [pv000_main_same_small obsA 1800
      (S000.mk [Ev000.mk "A4" (((1500 : ℝ) - 1000) / 1000) (((1000 : ℝ) - 1000) / 1000) (some (idealFreq 69))] (some "C5") (some (idealFreq 72)) (some 1500) (some 1000) (some 1500) none (some "A4") 1600 2) "A4" rfl rfl (by decide)]
  have e10 : processValidPitch000 obsA 1900 (S000.mk [Ev000.mk "A4" (((1500 : ℝ) - 1000) / 1000) (((1000 : ℝ) - 1000) / 1000) (some (idealFreq 69))] (some "C5") (some (idealFreq 72)) (some 1500) (some 1000) (some 1500) none (some "A4") 1600 3) = (S000.mk [Ev000.mk "A4" (((1500 : ℝ) - 1000) / 1000) (((1000 : ℝ) - 1000) / 1000) (some (idealFreq 69))] (some "C5") (some (idealFreq 72)) (some 1500) (some 1000) (some 1500) none (some "A4") 1600 4) := by
    rw [processValidPitch000, pv000_init_some 1900 1000 (S000.mk [Ev000.mk "A4" (((1500 : ℝ) - 1000) / 1000) (((1000 : ℝ) - 1000) / 1000) (some (idealFreq 69))] (some "C5") (some (idealFreq 72)) (some 1500) (some 1000) (some 1500) none (some "A4") 1600 3) rfl (by norm_num)]
    rw [pv000_pause_none 1900
      (S000.mk [Ev000.mk "A4" (((1500 : ℝ) - 1000) / 1000) (((1000 : ℝ) - 1000) / 1000) (some (idealFreq 69))] (some "C5") (some (idealFreq 72)) (some 1500) (some 1000) (some 1500) none (some "A4") 1600 3) rfl]
    rw [pv000_main_same_small obsA 1900
      (S000.mk [Ev000.mk "A4" (((1500 : ℝ) - 1000) / 1000) (((1000 : ℝ) - 1000) / 1000) (some (idealFreq 69))] (some "C5") (some (idealFreq 72)) (some 1500) (some 1000) (some 1500) none (some "A4") 1600 3) "A4" rfl rfl (by decide)]
  have e11 : processValidPitch000 obsA 2000 (S000.mk [Ev000.mk "A4" (((1500 : ℝ) - 1000) / 1000) (((1000 : ℝ) - 1000) / 1000) (some (idealFreq 69))] (some "C5") (some (idealFreq 72)) (some 1500) (some 1000) (some 1500) none (some "A4") 1600 4) = (S000.mk [Ev000.mk "A4" (((1500 : ℝ) - 1000) / 1000) (((1000 : ℝ) - 1000) / 1000) (some (idealFreq 69)), Ev000.mk "C5" (((1600 : ℝ) - 1500) / 1000) (((1500 : ℝ) - 1000) / 1000) (some (idealFreq 72))] (some "A4") (some (idealFreq 69)) (some 1600) (some 1000) (some 2000) none (some "A4") 1600 5) := by
    rw [processValidPitch000, pv000_init_some 2000 1000 (S000.mk [Ev000.mk "A4" (((1500 : ℝ) - 1000) / 1000) (((1000 : ℝ) - 1000) / 1000) (some (idealFreq 69))] (some "C5") (some (idealFreq 72)) (some 1500) (some 1000) (some 1500) none (some "A4") 1600 4) rfl (by norm_num)]
    rw [pv000_pause_none 2000
      (S000.mk [Ev000.mk "A4" (((1500 : ℝ) - 1000) / 1000) (((1000 : ℝ) - 1000) / 1000) (some (idealFreq 69))] (some "C5") (some (idealFreq 72)) (some 1500) (some 1000) (some 1500) none (some "A4") 1600 4) rfl]
    rw [pv000_main_confirm_push obsA 2000
      (S000.mk [Ev000.mk "A4" (((1500 : ℝ) - 1000) / 1000) (((1000 : ℝ) - 1000) / 1000) (some (idealFreq 69))] (some "C5") (some (idealFreq 72)) (some 1500) (some 1000) (some 1500) none (some "A4") 1600 4) "A4" "C5" rfl rfl (by decide) rfl (by decide)]
    rfl
  have hrun : c3Run = (S000.mk [Ev000.mk "A4" (((1500 : ℝ) - 1000) / 1000) (((1000 : ℝ) - 1000) / 1000) (some (idealFreq 69)), Ev000.mk "C5" (((1600 : ℝ) - 1500) / 1000) (((1500 : ℝ) - 1000) / 1000) (some (idealFreq 72))] (some "A4") (some (idealFreq 69)) (some 1600) (some 1000) (some 2000) none (some "A4") 1600 5) := by
    rw [c3Run, c3Input]
    simp only [List.foldl_cons, List.foldl_nil]
    rw [e1, e2, e3, e4, e5, e6, e7, e8, e9, e10, e11]
  refine ⟨?_, ?_, by decide⟩
  · rw [hrun]
    simp only []
    norm_num [Ev000.mk.injEq]
  · decide

/-!  ## FrequencyAnalyzer (src/melody-2/audio/FrequencyAnalyzer.js)

The class's mutable fields `previousFrequencies` and `lastValidFrequency`
form the state; the configuration options keep their defaults.  The spectral
search (`getFrequencies`, `findDominantFrequency` and helpers) is pure and
only reads the state (through `applyContextFilter`). -/

/-- Default `minFrequency` (E2). -/
noncomputable def minFrequency : ℝ := 82.4

/-- Default `maxFrequency` (C6). -/
noncomputable def maxFrequency : ℝ := 1047

/-- Default `noiseFloor` in dB. -/
noncomputable def noiseFloor : ℝ := -70

/-- Default `peakThreshold`. -/
noncomputable def peakThreshold : ℝ := 0.75

/-- Default `smoothingFactor`. -/
noncomputable def smoothingFactor : ℝ := 0.6

/-- Default `bufferSize` of the smoothing buffer. -/
def bufferSize : ℕ := 5

/-- Default `calibrationFactor`. -/
noncomputable def calibrationFactor : ℝ := 1

/-- Default `harmonicWeighting`. -/
noncomputable def harmonicWeighting : ℝ := 0.8

/-- Default `maxOctaveJump` in octaves. -/
noncomputable def maxOctaveJump : ℝ := 2

/-- Default `contextWeight`. -/
noncomputable def contextWeight : ℝ := 0.3

/-- The FrequencyAnalyzer's mutable state: the rolling buffer
`previousFrequencies` and `lastValidFrequency` (initially `[]` / `null`). -/
structure FAState where
  previousFrequencies : List ℝ
  lastValidFrequency : Option ℝ

open scoped Classical in
/-- `isAboveNoiseFloor`: RMS amplitude converted to dB
(`20·log10(max(rms, 1e-10))`) compared against the noise floor. -/
noncomputable def isAboveNoiseFloor (audioData : List ℝ) : Prop :=
  let rms := Real.sqrt (((audioData.map fun x => x * x).sum) / audioData.length)
  noiseFloor < 20 * Real.logb 10 (max rms 1e-10)

/-- The `while (length > bufferSize) shift()` loop. -/
def dropExcess (n : ℕ) (l : List ℝ) : List ℝ :=
  if n < l.length then dropExcess n l.tail else l
termination_by l.length
decreasing_by
  simp only [List.length_tail]
  omega

open scoped Classical in
/-- JS `Array.prototype.sort((a, b) => a - b)`: ascending, stable. -/
noncomputable def jsSortAsc (l : List ℝ) : List ℝ :=
  l.mergeSort (fun a b => decide (a ≤ b))

open scoped Classical in
/-- `smoothFrequency`: push into the buffer, trim it to `bufferSize`,
median/MAD outlier replacement once the buffer holds ≥ 3 samples, then
adaptive exponential smoothing against `lastValidFrequency`.  Returns the
smoothed value and the state with the updated buffer (the caller,
`analyzePitch`, writes `lastValidFrequency`). -/
noncomputable def smoothFrequency (s : FAState) (frequency : ℝ) : ℝ × FAState :=
  let buf := dropExcess bufferSize (s.previousFrequencies ++ [frequency])
  let f1 :=
    if 3 ≤ buf.length then
      let sortedFreqs := jsSortAsc buf
      let median := sortedFreqs.getD (sortedFreqs.length / 2) 0
      let deviations := jsSortAsc (sortedFreqs.map fun f => |f - median|)
      let mad := deviations.getD (deviations.length / 2) 0
      let threshold := 3 * mad / 0.6745
      if threshold < |frequency - median| then median else frequency
    else frequency
  let f2 :=
    match s.lastValidFrequency with
    | none => f1
    | some lv =>
        let changeRat := |f1 / lv - 1|
        let adaptiveFactor :=
          if changeRat < 0.01 then min (smoothingFactor + 0.1) 0.9
          else max (smoothingFactor - 0.1) 0.3
        lv * adaptiveFactor + f1 * (1 - adaptiveFactor)
  (f2, { s with previousFrequencies := buf })

open scoped Classical in
/-- `applyContextFilter`: reject or blend octave jumps larger than
`maxOctaveJump` relative to `lastValidFrequency`, keeping the previous value
for harmonic/subharmonic ratios. -/
noncomputable def applyContextFilter (frequency : Option ℝ) (s : FAState) : Option ℝ :=
  match frequency with
  | none => none
  | some f =>
      match s.lastValidFrequency with
      | none => some f
      | some lv =>
          let r := f / lv
          let octaveJump := |Real.logb 2 r|
          if maxOctaveJump < octaveJump then
            let harmonicRat := if 1 < r then r else 1 / r
            let n := round harmonicRat
            if |harmonicRat - (n : ℝ)| < 0.05 ∧ n ≤ 4 then some lv
            else some (lv * (1 - contextWeight) + f * contextWeight)
          else some f

/-- The Hann-windowed samples of `getFrequencies`. -/
noncomputable def hannWindowed (audioData : List ℝ) : List ℝ :=
  audioData.mapIdx fun i x =>
    x * (0.5 * (1 - Real.cos (2 * Real.pi * i / ((audioData.length : ℝ) - 1))))

/-- The normalized-autocorrelation array of `getFrequencies`: length
`maxPeriod`, zero below `minPeriod` (the `Float32Array` stays
zero-initialized there), `Σ w[i]·w[i+lag] / Σ w[i]²` elsewhere. -/
noncomputable def autocorrData (audioData : List ℝ) (sampleRate : ℝ) : List ℝ :=
  let windowedData := hannWindowed audioData
  let minPeriod := (⌊sampleRate / maxFrequency⌋).toNat
  let maxPeriod := (⌈sampleRate / minFrequency⌉).toNat
  let sumSquares := (windowedData.map fun x => x * x).sum
  (List.range maxPeriod).map fun lag =>
    if lag < minPeriod then 0
    else (((windowedData.zip (windowedData.drop lag)).map fun p => p.1 * p.2).sum) / sumSquares

/-- `getFrequencies`: use provided (nonempty) spectrum data, else compute the
autocorrelation. -/
noncomputable def getFrequencies (audioData : List ℝ) (sampleRate : ℝ)
    (frequencyData : Option (List ℝ)) : List ℝ :=
  match frequencyData with
  | some fd => if fd.length ≠ 0 then fd else autocorrData audioData sampleRate
  | none => autocorrData audioData sampleRate

/-- An autocorrelation peak: refined lag, frequency, strength. -/
structure ACPeak where
  lag : ℝ
  frequency : ℝ
  strength : ℝ

open scoped Classical in
/-- `findFrequencyFromAutocorrelation`: local maxima above correlation 0.2
past `skipBins` (with parabolic refinement), strongest-first; subharmonic
candidates at integer lag ratios 2–4 are rescored, and the best candidate
passes through the context filter.  (`skipBins` is
`Math.min(30, length / 8)`; JS computes a possibly fractional index here,
modelled with integer division.) -/
noncomputable def findFrequencyFromAutocorrelation (correlations : List ℝ)
    (sampleRate : ℝ) (s : FAState) : Option ℝ :=
  let skipBins := min 30 (correlations.length / 8)
  let c := fun i => correlations.getD i 0
  let peaks := (List.range (correlations.length - 1)).filterMap fun lag =>
    if skipBins < lag ∧ c (lag - 1) < c lag ∧ c (lag + 1) ≤ c lag ∧ 0.2 < c lag then
      let y1 := c (lag - 1)
      let y2 := c lag
      let y3 := c (lag + 1)
      let refinedLag := (lag : ℝ) + 0.5 * (y1 - y3) / (y1 - 2 * y2 + y3)
      some (ACPeak.mk refinedLag (sampleRate / refinedLag) (c lag))
    else none
  match peaks.mergeSort (fun a b => decide (b.strength ≤ a.strength)) with
  | [] => none
  | p0 :: rest =>
      let cands :=
        (p0.frequency * calibrationFactor, p0.strength) ::
          (rest.take 4).filterMap fun pk =>
            let r := p0.lag / pk.lag
            let n := round r
            if |r - (n : ℝ)| < 0.05 ∧ 1 < n ∧ n ≤ 4 then
              let candidateFreq := pk.frequency * calibrationFactor
              if minFrequency ≤ candidateFreq ∧ candidateFreq ≤ maxFrequency then
                some (candidateFreq, pk.strength * (1 + 0.1 * (n : ℝ)))
              else none
            else none
      match cands.mergeSort (fun a b => decide (b.2 ≤ a.2)) with
      | [] => none
      | best :: _ => applyContextFilter (some best.1) s

/-- A spectral peak: refined bin, frequency, magnitude. -/
structure SPeak where
  bin : ℝ
  frequency : ℝ
  magnitude : ℝ

/-- JS `Math.max(...arr)` for the nonempty slices this code feeds it (the
empty case would be `-Infinity` in JS and is unreachable here). -/
noncomputable def jsMax (l : List ℝ) : ℝ :=
  match l with
  | [] => 0
  | a :: t => t.foldl max a

open scoped Classical in
/-- `findSpectralPeaks`: local maxima above `peakThreshold` times the
range's maximum, refined by quadratic interpolation, strongest first. -/
noncomputable def findSpectralPeaks (frequencies : List ℝ) (minBin maxBin : ℕ)
    (binSize : ℝ) : List SPeak :=
  let f := fun i => frequencies.getD i 0
  let thr := jsMax ((frequencies.drop minBin).take (maxBin + 1 - minBin)) * peakThreshold
  let peaks := (List.range maxBin).filterMap fun i =>
    if minBin + 1 ≤ i ∧ thr < f i ∧ f (i - 1) < f i ∧ f (i + 1) ≤ f i then
      let refinedBin :=
        if 0 < i ∧ i < frequencies.length - 1 then
          let y1 := f (i - 1)
          let y2 := f i
          let y3 := f (i + 1)
          if y1 < y2 ∧ y3 < y2 then (i : ℝ) + 0.5 * (y1 - y3) / (y1 - 2 * y2 + y3)
          else (i : ℝ)
        else (i : ℝ)
      some (SPeak.mk refinedBin (refinedBin * binSize) (f i))
    else none
  peaks.mergeSort (fun a b => decide (b.magnitude ≤ a.magnitude))

open scoped Classical in
/-- `analyzeFundamentalFrequency`: score every peak as a fundamental by the
presence of its 2nd–5th harmonics (lower harmonics weighted more), combined
with its relative magnitude; highest score wins. -/
noncomputable def analyzeFundamentalFrequency (peaks : List SPeak) (binSize : ℝ) :
    Option ℝ :=
  match peaks with
  | [] => none
  | [p] => some (p.frequency * calibrationFactor)
  | p0 :: _ :: _ =>
      let cands := peaks.map fun peak =>
        let scorePair := ([2, 3, 4, 5] : List ℕ).foldl
          (fun (acc : ℝ × ℕ) harmonic =>
            let harmonicFreq := peak.frequency * harmonic
            if harmonicFreq < maxFrequency then
              match peaks.find? (fun q =>
                  decide (|q.bin - harmonicFreq / binSize| < 0.05 * harmonic)) with
              | some cp =>
                  let dev := |cp.frequency / peak.frequency - (harmonic : ℝ)|
                  (acc.1 + (1 - (min dev 0.1) * 10) * (1 / (harmonic : ℝ)), acc.2 + 1)
              | none => (acc.1, acc.2 + 1)
            else acc)
          ((0 : ℝ), (0 : ℕ))
        let normalizedScore := if 0 < scorePair.2 then scorePair.1 / (scorePair.2 : ℝ) else 0
        let finalScore := (1 - harmonicWeighting) * (peak.magnitude / p0.magnitude) +
          harmonicWeighting * normalizedScore
        (peak.frequency * calibrationFactor, finalScore)
      match cands.mergeSort (fun a b => decide (b.2 ≤ a.2)) with
      | [] => none
      | best :: _ => some best.1

/-- `findFrequencyFromFFT`: spectral peaks in the configured bin range,
harmonic scoring, then the context filter. -/
noncomputable def findFrequencyFromFFT (frequencies : List ℝ) (sampleRate : ℝ)
    (s : FAState) : Option ℝ :=
  let nyquist := sampleRate / 2
  let binSize := nyquist / ((frequencies.length : ℝ) - 1)
  let minBin := max 2 (⌊minFrequency / binSize⌋).toNat
  let maxBin := min (frequencies.length - 1) (⌈maxFrequency / binSize⌉).toNat
  let peaks := findSpectralPeaks frequencies minBin maxBin binSize
  match peaks with
  | [] => none
  | _ => applyContextFilter (analyzeFundamentalFrequency peaks binSize) s

/-- `findDominantFrequency`: arrays longer than 1000 entries are treated as
FFT data, shorter ones as autocorrelation data. -/
noncomputable def findDominantFrequency (frequencies : List ℝ) (sampleRate : ℝ)
    (s : FAState) : Option ℝ :=
  if 1000 < frequencies.length then findFrequencyFromFFT frequencies sampleRate s
  else findFrequencyFromAutocorrelation frequencies sampleRate s

open scoped Classical in
/-- The dominant frequency after `analyzePitch`'s range constraint
(lines 36–41 of the source): `null` when nothing was found or the value
falls outside `[minFrequency, maxFrequency]`. -/
noncomputable def constrainedPitch (audioData : List ℝ) (sampleRate : ℝ)
    (frequencyData : Option (List ℝ)) (s : FAState) : Option ℝ :=
  match findDominantFrequency (getFrequencies audioData sampleRate frequencyData)
      sampleRate s with
  | some f => if f < minFrequency ∨ maxFrequency < f then none else some f
  | none => none

open scoped Classical in
/-- `analyzePitch`: below the noise floor return `null` untouched; otherwise
find the constrained dominant frequency; when it exists, smooth it and set
`lastValidFrequency`; when it does not, return `null`.  Note: **no** branch
clears `previousFrequencies` or `lastValidFrequency`. -/
noncomputable def analyzePitch (audioData : List ℝ) (sampleRate : ℝ)
    (frequencyData : Option (List ℝ)) (s : FAState) : Option ℝ × FAState :=
  if ¬ isAboveNoiseFloor audioData then (none, s)
  else
    match constrainedPitch audioData sampleRate frequencyData s with
    | some f =>
        let r := smoothFrequency s f
        (some r.1, { r.2 with lastValidFrequency := some r.1 })
    | none => (none, s)

lemma isAboveNoiseFloor_zeros : ¬ isAboveNoiseFloor (List.replicate 2048 (0 : ℝ)) := by
  rw [isAboveNoiseFloor]
  have hsum : ((List.replicate 2048 (0 : ℝ)).map fun x => x * x).sum = 0 := by
    rw [List.map_replicate]
    rw [show ((0 : ℝ) * 0) = 0 by ring, List.sum_replicate]
    simp
  rw [hsum]
  have hsqrt : Real.sqrt ((0 : ℝ) / (List.replicate 2048 (0 : ℝ)).length) = 0 := by
    rw [zero_div, Real.sqrt_zero]
  rw [hsqrt]
  have hmax : max (0 : ℝ) 1e-10 = 1e-10 := max_eq_right (by norm_num)
  rw [hmax]
  have h1 : (1e-10 : ℝ) = (10 : ℝ) ^ (-(10 : ℝ)) := by
    rw [Real.rpow_neg (by norm_num : (0 : ℝ) ≤ 10)]
    rw [show ((10 : ℝ) ^ (10 : ℝ)) = (10 : ℝ) ^ (10 : ℕ) from by
      rw [← Real.rpow_natCast]
      norm_num]
    norm_num
  rw [h1, Real.logb_rpow (by norm_num) (by norm_num), noiseFloor]
  norm_num

lemma analyzePitch_silent (s : FAState) :
    analyzePitch (List.replicate 2048 0) 44100 none s = (none, s) := by
  rw [analyzePitch, if_pos isAboveNoiseFloor_zeros]

/-!  ## C5: no reset of the smoother's state on a silent tick -/

/-- C5 counterexample: with the rolling buffer `[440]` and
`lastValidFrequency = 440`, a tick whose block is below the noise floor
(2048 zero samples) returns `null` but leaves the buffer **nonempty** and
`lastValidFrequency` **set** — the claimed clearing does not exist in the
code. -/
theorem silent_tick_does_not_clear_state :
    analyzePitch (List.replicate 2048 0) 44100 none ⟨[440], some 440⟩ =
        (none, ⟨[440], some 440⟩) ∧
      ([440] : List ℝ) ≠ [] ∧ (some (440 : ℝ)) ≠ none :=
  ⟨analyzePitch_silent _, by simp, by simp⟩

/-- C5 amended: whenever `analyzePitch` yields no usable pitch (`null`) —
below the noise floor, no dominant frequency, or out of range — the
FrequencySmoother's state is left exactly as it was: `previousFrequencies`
and `lastValidFrequency` are unchanged, not cleared. -/
theorem analyzePitch_none_preserves_state (audioData : List ℝ) (sampleRate : ℝ)
    (frequencyData : Option (List ℝ)) (s : FAState)
    (h : (analyzePitch audioData sampleRate frequencyData s).1 = none) :
    (analyzePitch audioData sampleRate frequencyData s).2 = s := by
  rw [analyzePitch] at h ⊢
  by_cases hn : isAboveNoiseFloor audioData
  · rw [if_neg (not_not_intro hn)] at h ⊢
    cases hc : constrainedPitch audioData sampleRate frequencyData s with
    | none => rfl
    | some f =>
        rw [hc] at h
        simp at h
  · rw [if_pos hn]

/-- Witness for C5's amended theorem at the silent block. -/
theorem analyzePitch_none_preserves_state_witness :
    (analyzePitch (List.replicate 2048 0) 44100 none ⟨[330], some 330⟩).1 = none ∧
      (analyzePitch (List.replicate 2048 0) 44100 none ⟨[330], some 330⟩).2 =
        ⟨[330], some 330⟩ :=
  ⟨by rw [analyzePitch_silent], analyzePitch_none_preserves_state _ _ _ _
    (by rw [analyzePitch_silent])⟩
